import Mathlib

/-!
Shallow embedding of `src/Lib/fontParts/objects/base/layer.py` (class `BaseLayer`)
together with the small pieces of its collaborators (`validators`, `Color`,
`BaseObject.raiseNotImplementedError`, `weakref`) that the layer code uses but
that are not shipped under `src/`.  Those collaborator pieces are modelled from
the spec and are marked as such in their doc comments; everything else is a
direct translation of the Python source.

Python exceptions are modelled by the error kinds the spec assigns to the
distinct raise sites of the source:
  * the `assert self._font is None` in `_set_font`    -> `invariantViolation`
  * `FontPartsError("A layer with the name %r already exists.")` -> `duplicateName`
  * `FontPartsError("No glyph named %r.")`            -> `notFound`
  * `self.raiseNotImplementedError()`                 -> `unimplemented`
  * a failure inside a `validators.validate*` call    -> `validation`

A Python method that can raise and mutate is embedded as a function
`σ → Except Err α × σ`: the second component is the object state when the
call returns or when the exception propagates out of it.
-/

set_option autoImplicit false
set_option linter.unusedVariables false

namespace FontParts

/-- Error kinds, one per distinct raise site of the source (see module docstring). -/
inductive Err where
  | invariantViolation
  | duplicateName
  | notFound
  | unimplemented
  | validation
  deriving DecidableEq, Repr

instance {ε α : Type} [DecidableEq ε] [DecidableEq α] : DecidableEq (Except ε α)
  | .ok a, .ok b =>
    if h : a = b then .isTrue (h ▸ rfl)
    else .isFalse (fun hc => h (Except.ok.inj hc))
  | .error a, .error b =>
    if h : a = b then .isTrue (h ▸ rfl)
    else .isFalse (fun hc => h (Except.error.inj hc))
  | .ok _, .error _ => .isFalse (fun hc => Except.noConfusion hc)
  | .error _, .ok _ => .isFalse (fun hc => Except.noConfusion hc)

/-- Fonts are external owners; only their identity matters to the layer code. -/
abbrev Font := Nat

/-- A wrapped glyph, as produced by the `_getItem` hook.  The layer code never
looks inside a glyph, so only the wrapped name matters. -/
structure Glyph where
  glyphName : String
  deriving DecidableEq, Repr

/-- A layer `lib`: arbitrary persistent key-value metadata (spec section 3). -/
def Lib := List (String × String)

/-- A raw color value as handed to the color hooks: a 4-component tuple. -/
structure ColorTuple where
  r : ℚ
  g : ℚ
  b : ℚ
  a : ℚ
  deriving DecidableEq, Repr

/-- Modelled from the spec: the `Color` value type from module `color` (not under
`src/`) wraps a validated color tuple. -/
structure Color where
  toTuple : ColorTuple
  deriving DecidableEq, Repr

/-- Modelled from the spec: `validators.validateLayerName` (module `validators` is
not under `src/`).  It checks that the value is a well-formed layer-name string
and returns the validated value, failing with a `ValidationError` otherwise.
The exact acceptance set is environment knowledge, so it is a parameter
`valid : String → Bool`; a well-formed string is returned unchanged. -/
def validateLayerName (valid : String → Bool) (s : String) : Except Err String :=
  if valid s then .ok s else .error .validation

/-- Modelled from the spec: `validators.validateGlyphName` (module `validators`
is not under `src/`).  Same shape as `validateLayerName`: syntactic glyph-name
check, parameterised by the acceptance set. -/
def validateGlyphName (valid : String → Bool) (s : String) : Except Err String :=
  if valid s then .ok s else .error .validation

/-- Modelled from the spec: `validators.validateColor` (module `validators` is
not under `src/`).  The spec requires a normalized 4-component tuple; a tuple
whose components all lie in `[0, 1]` is returned unchanged, anything else is a
`ValidationError`. -/
def validateColor (t : ColorTuple) : Except Err ColorTuple :=
  if 0 ≤ t.r ∧ t.r ≤ 1 ∧ 0 ≤ t.g ∧ t.g ≤ 1 ∧ 0 ≤ t.b ∧ t.b ≤ 1 ∧ 0 ≤ t.a ∧ t.a ≤ 1 then
    .ok t
  else
    .error .validation

/-! ### The font back-reference (`_font`, `_get_font`, `_set_font`)

`self._font` is either `None` or `weakref.ref(font)`.  A weak reference is
modelled by its referent: no claim depends on the referent dying, so the
dereference `self._font()` simply yields the referent again. -/

/-- The slice of layer state behind the `font` property: the class attribute
`_font = None`, overwritten per instance by `_set_font`. -/
structure LayerFontState where
  _font : Option Font
  deriving DecidableEq

/-- Python `_get_font`: `if self._font is None: return None; return self._font()`.
Dereferencing the (alive) weak reference yields the stored font. -/
def _get_font (s : LayerFontState) : Option Font :=
  match s._font with
  | none => none
  | some f => some f

/-- Python `_set_font`: `assert self._font is None` (raise site `invariantViolation`),
then `if font is not None: font = weakref.ref(font)`, then `self._font = font`.
The assert precedes the assignment, so a failing call leaves the state as it was. -/
def _set_font (font : Option Font) (s : LayerFontState) :
    Except Err Unit × LayerFontState :=
  match s._font with
  | some _ => (.error .invariantViolation, s)
  | none => (.ok (), { s with _font := font })

/-! ### Subclass hooks

In the source, `_get_name`, `_set_name`, `_get_color`, `_set_color`, `_get_lib`,
`_getItem` and `_keys` are the base-class methods that call
`self.raiseNotImplementedError()`; concrete environments override them.  They
are gathered into a record of functions over the environment state `σ`, so that
the base-class logic below can be stated once for every subclass; the bare base
class is the instantiation where every hook yields `unimplemented`.
`fontLayerOrder` stands for the external read `self.font.layerOrder` performed
by `_set_base_name`. -/
structure Hooks (σ : Type) where
  _get_name : σ → Except Err (Option String) × σ
  _set_name : Option String → σ → Except Err Unit × σ
  _get_color : σ → Except Err (Option ColorTuple) × σ
  _set_color : Option ColorTuple → σ → Except Err Unit × σ
  _get_lib : σ → Except Err Lib × σ
  _getItem : String → σ → Except Err Glyph × σ
  _keys : σ → Except Err (List String) × σ
  fontLayerOrder : σ → List String

variable {σ : Type}

/-- Python `_get_base_name`: `value = self._get_name()`; if non-null,
`value = validators.validateLayerName(value)`; return it. -/
def _get_base_name (valid : String → Bool) (h : Hooks σ) (s : σ) :
    Except Err (Option String) × σ :=
  match h._get_name s with
  | (.error e, s) => (.error e, s)
  | (.ok none, s) => (.ok none, s)
  | (.ok (some v), s) =>
    match validateLayerName valid v with
    | .error e => (.error e, s)
    | .ok v => (.ok (some v), s)

/-- Python `_set_base_name`: `if value == self.name: return` (the read of `self.name`
goes through `_get_base_name`); otherwise, for a non-null value, validate it and
raise `duplicateName` when it already occurs in `self.font.layerOrder`; finally
delegate to `self._set_name(value)`. -/
def _set_base_name (valid : String → Bool) (h : Hooks σ) (value : Option String)
    (s : σ) : Except Err Unit × σ :=
  match _get_base_name valid h s with
  | (.error e, s) => (.error e, s)
  | (.ok current, s) =>
    if value = current then (.ok (), s)
    else
      match value with
      | none => h._set_name none s
      | some v =>
        match validateLayerName valid v with
        | .error e => (.error e, s)
        | .ok v =>
          if v ∈ h.fontLayerOrder s then (.error .duplicateName, s)
          else h._set_name (some v) s

/-- Python `_get_base_color`: `value = self._get_color()`; if non-null,
`value = validators.validateColor(value)` then `value = Color(value)`. -/
def _get_base_color (h : Hooks σ) (s : σ) : Except Err (Option Color) × σ :=
  match h._get_color s with
  | (.error e, s) => (.error e, s)
  | (.ok none, s) => (.ok none, s)
  | (.ok (some v), s) =>
    match validateColor v with
    | .error e => (.error e, s)
    | .ok v => (.ok (some (Color.mk v)), s)

/-- Python `_set_base_color`: if non-null, `value = validators.validateColor(value)`;
then `self._set_color(value)`. -/
def _set_base_color (h : Hooks σ) (value : Option ColorTuple) (s : σ) :
    Except Err Unit × σ :=
  match value with
  | none => h._set_color none s
  | some v =>
    match validateColor v with
    | .error e => (.error e, s)
    | .ok v => h._set_color (some v) s

/-- The `lib` property read: delegates to `self._get_lib()`. -/
def libGet (h : Hooks σ) (s : σ) : Except Err Lib × σ :=
  h._get_lib s

/-- Python `keys`: delegates to `self._keys()`. -/
def keys (h : Hooks σ) (s : σ) : Except Err (List String) × σ :=
  h._keys s

/-- Default `_contains`: `name in self.keys()`. -/
def _contains (h : Hooks σ) (name : String) (s : σ) : Except Err Bool × σ :=
  match keys h s with
  | (.error e, s) => (.error e, s)
  | (.ok ks, s) => (.ok (decide (name ∈ ks)), s)

/-- Python `__contains__`: `name = validators.validateGlyphName(name)`, then
`self._contains(name)`. -/
def __contains__ (validG : String → Bool) (h : Hooks σ) (name : String) (s : σ) :
    Except Err Bool × σ :=
  match validateGlyphName validG name with
  | .error e => (.error e, s)
  | .ok name => _contains h name s

/-- Python `__getitem__`: validate the glyph name, raise `notFound` when
`name not in self` (the membership test is `__contains__`), otherwise delegate
to `self._getItem(name)`. -/
def __getitem__ (validG : String → Bool) (h : Hooks σ) (name : String) (s : σ) :
    Except Err Glyph × σ :=
  match validateGlyphName validG name with
  | .error e => (.error e, s)
  | .ok name =>
    match __contains__ validG h name s with
    | (.error e, s) => (.error e, s)
    | (.ok b, s) =>
      if b then h._getItem name s else (.error .notFound, s)

/-- Default `_len`: `len(self.keys())` (`__len__` simply calls it). -/
def _len (h : Hooks σ) (s : σ) : Except Err Nat × σ :=
  match keys h s with
  | (.error e, s) => (.error e, s)
  | (.ok ks, s) => (.ok ks.length, s)

/-- The loop of the `_iter` generator:
`while names: name = names[0]; yield self[name]; names = names[1:]`.
Running the generator to exhaustion collects every yielded glyph in order; an
exception inside a step propagates out. -/
def iterLoop (validG : String → Bool) (h : Hooks σ) :
    List String → σ → Except Err (List Glyph) × σ
  | [], s => (.ok [], s)
  | name :: rest, s =>
    match __getitem__ validG h name s with
    | (.error e, s) => (.error e, s)
    | (.ok g, s) =>
      match iterLoop validG h rest s with
      | (.error e, s) => (.error e, s)
      | (.ok gs, s) => (.ok (g :: gs), s)

/-- Default `_iter` (`__iter__` simply calls it): `names = self.keys()` —
fetched once, before the loop — then the loop above over that snapshot. -/
def _iter (validG : String → Bool) (h : Hooks σ) (s : σ) :
    Except Err (List Glyph) × σ :=
  match keys h s with
  | (.error e, s) => (.error e, s)
  | (.ok names, s) => iterLoop validG h names s

/-! ### Declared-only operations

`newGlyph`, `removeGlyph`, `insertGlyph`, `round`, `autoUnicodes`,
`interpolate`, `getCharacterMapping` and `getReverseComponentMapping` have a
docstring and an empty body in the source: called on the base class they return
`None` and touch nothing. -/

/-- Python `newGlyph(name, clear=True)`: empty body. -/
def newGlyph (s : σ) (name : String) (clear : Bool) :
    Except Err (Option Glyph) × σ :=
  (.ok none, s)

/-- Python `removeGlyph(name)`: empty body. -/
def removeGlyph (s : σ) (name : String) : Except Err (Option Unit) × σ :=
  (.ok none, s)

/-- Python `insertGlyph(glyph, name=None)`: empty body. -/
def insertGlyph (s : σ) (glyph : Glyph) (name : Option String) :
    Except Err (Option Glyph) × σ :=
  (.ok none, s)

/-- Python `round()`: empty body. -/
def round (s : σ) : Except Err (Option Unit) × σ :=
  (.ok none, s)

/-- Python `autoUnicodes()`: empty body. -/
def autoUnicodes (s : σ) : Except Err (Option Unit) × σ :=
  (.ok none, s)

/-- Python `interpolate(factor, minLayer, maxLayer, suppressError=True,
analyzeOnly=False, showProgress=False)`: empty body.  `factor` is a number or a
pair of numbers. -/
def interpolate (s : σ) (factor : ℚ ⊕ ℚ × ℚ) (minLayer maxLayer : σ)
    (suppressError analyzeOnly showProgress : Bool) :
    Except Err (Option (List (String × String))) × σ :=
  (.ok none, s)

/-- Python `getCharacterMapping()`: empty body. -/
def getCharacterMapping (s : σ) :
    Except Err (Option (List (Nat × List String))) × σ :=
  (.ok none, s)

/-- Python `getReverseComponentMapping()`: empty body. -/
def getReverseComponentMapping (s : σ) :
    Except Err (Option (List (String × List String))) × σ :=
  (.ok none, s)

/-! ### Instantiations of the hook record

`storingHooks` is the canonical subclass with implemented name/color hooks: it
keeps the raw name and color in plain fields, returning stored values unchanged.
`setNameCalls` counts `_set_name` invocations, so a theorem whose final state
equals the initial one shows in particular that the set hook never ran.
`bareHooks` is the bare base class: every hook is the inherited
`raiseNotImplementedError` body.  `fixedGlyphHooks` implements the key and item
hooks over a fixed name list.  `countingHooks` threads a fetch counter through
the `_keys` hook, so the key list may differ from one fetch to the next —
this separates a snapshotting iteration from a re-fetching one. -/

/-- State of a layer whose name/color hooks store plainly; `order` is the owning
font's `layerOrder`. -/
structure StoringLayerState where
  storedName : Option String
  setNameCalls : Nat
  storedColor : Option ColorTuple
  order : List String
  deriving DecidableEq, Repr

/-- A subclass whose hooks store and return values unchanged. -/
def storingHooks : Hooks StoringLayerState where
  _get_name := fun s => (.ok s.storedName, s)
  _set_name := fun v s =>
    (.ok (), { s with storedName := v, setNameCalls := s.setNameCalls + 1 })
  _get_color := fun s => (.ok s.storedColor, s)
  _set_color := fun v s => (.ok (), { s with storedColor := v })
  _get_lib := fun s => (.ok ([] : Lib), s)
  _getItem := fun n s => (.ok ⟨n⟩, s)
  _keys := fun s => (.ok ([] : List String), s)
  fontLayerOrder := fun s => s.order

/-- The bare base class: every hook body is `self.raiseNotImplementedError()`.
(`fontLayerOrder` is never reached on the bare base: the name getter fails
first, so the supplied value is immaterial.) -/
def bareHooks : Hooks Unit where
  _get_name := fun s => (.error .unimplemented, s)
  _set_name := fun _ s => (.error .unimplemented, s)
  _get_color := fun s => (.error .unimplemented, s)
  _set_color := fun _ s => (.error .unimplemented, s)
  _get_lib := fun s => (.error .unimplemented, s)
  _getItem := fun _ s => (.error .unimplemented, s)
  _keys := fun s => (.error .unimplemented, s)
  fontLayerOrder := fun _ => []

/-- A subclass implementing the glyph hooks over a fixed name list: the item
hook wraps the looked-up name. -/
def fixedGlyphHooks (names : List String) : Hooks Unit where
  _get_name := fun s => (.error .unimplemented, s)
  _set_name := fun _ s => (.error .unimplemented, s)
  _get_color := fun s => (.error .unimplemented, s)
  _set_color := fun _ s => (.error .unimplemented, s)
  _get_lib := fun s => (.error .unimplemented, s)
  _getItem := fun n s => (.ok ⟨n⟩, s)
  _keys := fun s => (.ok names, s)
  fontLayerOrder := fun _ => []

/-- A subclass whose `_keys` hook answers the `c`-th fetch with `keysAt c`: the
state is the number of fetches performed so far. -/
def countingHooks (keysAt : Nat → List String) : Hooks Nat where
  _get_name := fun s => (.error .unimplemented, s)
  _set_name := fun _ s => (.error .unimplemented, s)
  _get_color := fun s => (.error .unimplemented, s)
  _set_color := fun _ s => (.error .unimplemented, s)
  _get_lib := fun s => (.error .unimplemented, s)
  _getItem := fun n s => (.ok ⟨n⟩, s)
  _keys := fun c => (.ok (keysAt c), c + 1)
  fontLayerOrder := fun _ => []

/-- Modelled from the spec: the iteration strategy that claim C6 attributes to
the code — "re-fetches the key list from the keys hook on every step (one fresh
fetch per yielded glyph), taking the first remaining name from the freshly
fetched list at each step".  The remaining names of a fresh list are those not
yet yielded.  `fuel` bounds the number of steps, since this strategy need not
terminate against arbitrary hooks; the comparison below uses ample fuel. -/
def iterRefetch (validG : String → Bool) (h : Hooks σ) :
    Nat → List String → σ → Except Err (List Glyph) × σ
  | 0, _, s => (.ok [], s)
  | fuel + 1, yielded, s =>
    match keys h s with
    | (.error e, s) => (.error e, s)
    | (.ok ks, s) =>
      match ks.filter (fun n => decide (n ∉ yielded)) with
      | [] => (.ok [], s)
      | name :: _ =>
        match __getitem__ validG h name s with
        | (.error e, s) => (.error e, s)
        | (.ok g, s) =>
          match iterRefetch validG h fuel (yielded ++ [name]) s with
          | (.error e, s) => (.error e, s)
          | (.ok gs, s) => (.ok (g :: gs), s)

/-- Key lists for the iteration comparison: the list answered to the first
fetch is `["a", "b"]`, every later fetch sees the grown list `["a", "b", "c"]`. -/
def exKeysAt : Nat → List String
  | 0 => ["a", "b"]
  | _ + 1 => ["a", "b", "c"]

/-! ## Theorems -/

/-- C1: from the unset state, setting the font to a non-null font succeeds and
stores the (weak) reference; afterwards every further set attempt — with any
argument, even the same font — raises `invariantViolation`, and the stored
back-reference is unchanged by the failed attempt (the returned state is the
state the failing call was given). -/
theorem font_set_once (s : LayerFontState) (f : Font) (h : s._font = none) :
    (_set_font (some f) s).1 = .ok () ∧
    ((_set_font (some f) s).2)._font = some f ∧
    ∀ g : Option Font,
      _set_font g (_set_font (some f) s).2
        = (.error .invariantViolation, (_set_font (some f) s).2) := by
  cases s with
  | mk sf =>
    cases h
    refine ⟨rfl, rfl, fun g => rfl⟩

/-- C1 witness: a concrete run from the unset state. -/
theorem font_set_once_witness :
    ((_set_font (some 7) ⟨none⟩).1 = .ok () ∧
    ((_set_font (some 7) ⟨none⟩).2)._font = some 7 ∧
    ∀ g : Option Font,
      _set_font g (_set_font (some 7) ⟨none⟩).2
        = (.error .invariantViolation, (_set_font (some 7) ⟨none⟩).2)) :=
  font_set_once ⟨none⟩ 7 rfl

/-- C10: with the back-reference unset, setting the font to null succeeds and
leaves it unset (reading the font still yields the absent value), and a later
set to a concrete font still succeeds: the one-time-set guard is consumed only
by a non-null set. -/
theorem font_null_set_keeps_unset (s : LayerFontState) (f : Font)
    (h : s._font = none) :
    _set_font none s = (.ok (), s) ∧
    _get_font (_set_font none s).2 = none ∧
    (_set_font (some f) (_set_font none s).2).1 = .ok () ∧
    ((_set_font (some f) (_set_font none s).2).2)._font = some f := by
  cases s with
  | mk sf =>
    cases h
    exact ⟨rfl, rfl, rfl, rfl⟩

/-- C10 witness: a concrete run from the unset state. -/
theorem font_null_set_keeps_unset_witness :
    (_set_font none ⟨none⟩ = (.ok (), (⟨none⟩ : LayerFontState)) ∧
    _get_font (_set_font none ⟨none⟩).2 = none ∧
    (_set_font (some 3) (_set_font none ⟨none⟩).2).1 = .ok () ∧
    ((_set_font (some 3) (_set_font none ⟨none⟩).2).2)._font = some 3) :=
  font_null_set_keeps_unset ⟨none⟩ 3 rfl

/-- C2: on a layer with storing name hooks, setting the name to a valid string
that differs from the current name and already occurs in the font's
`layerOrder` raises `duplicateName` and returns the state untouched: the stored
name is unchanged and `setNameCalls` shows the `_set_name` hook never ran. -/
theorem set_name_duplicate_raises (valid : String → Bool)
    (s : StoringLayerState) (v : String) (cur : Option String)
    (hget : _get_base_name valid storingHooks s = (.ok cur, s))
    (hne : some v ≠ cur) (hv : valid v = true) (hdup : v ∈ s.order) :
    _set_base_name valid storingHooks (some v) s = (.error .duplicateName, s) := by
  unfold _set_base_name
  rw [hget]
  simp only [storingHooks, hne, if_false, validateLayerName, hv, if_true]
  simp [hdup]

/-- C2 witness: renaming a layer named `x` to `dup` while `dup` is already in
the font's layer order. -/
theorem set_name_duplicate_raises_witness :
    (_get_base_name (fun _ => true) storingHooks ⟨some "x", 0, none, ["dup"]⟩
        = (.ok (some "x"), ⟨some "x", 0, none, ["dup"]⟩) ∧
    some "dup" ≠ some "x" ∧
    (fun (_ : String) => true) "dup" = true ∧
    "dup" ∈ (⟨some "x", 0, none, ["dup"]⟩ : StoringLayerState).order) ∧
    _set_base_name (fun _ => true) storingHooks (some "dup")
        ⟨some "x", 0, none, ["dup"]⟩
      = (.error .duplicateName, ⟨some "x", 0, none, ["dup"]⟩) :=
  ⟨⟨rfl, by decide, rfl, by decide⟩,
    set_name_duplicate_raises (fun _ => true) ⟨some "x", 0, none, ["dup"]⟩
      "dup" (some "x") rfl (by decide) rfl (by decide)⟩

/-- C3: setting the name to the value the `name` property currently reads is a
no-op: the call succeeds, the state is returned untouched (so the stored name
is unchanged and the `_set_name` hook never ran, per `setNameCalls`), no
validation of the new value and no duplicate check happens — the font's
`layerOrder` is arbitrary and may even contain the value. -/
theorem set_name_same_noop (valid : String → Bool) (s : StoringLayerState)
    (cur : Option String)
    (hget : _get_base_name valid storingHooks s = (.ok cur, s)) :
    _set_base_name valid storingHooks cur s = (.ok (), s) := by
  unfold _set_base_name
  rw [hget]
  simp

/-- C3 witness: re-setting the current name `x` while `x` itself sits in the
font's layer order; still a no-op. -/
theorem set_name_same_noop_witness :
    _get_base_name (fun _ => true) storingHooks ⟨some "x", 0, none, ["x", "y"]⟩
        = (.ok (some "x"), ⟨some "x", 0, none, ["x", "y"]⟩) ∧
    _set_base_name (fun _ => true) storingHooks (some "x")
        ⟨some "x", 0, none, ["x", "y"]⟩
      = (.ok (), ⟨some "x", 0, none, ["x", "y"]⟩) :=
  ⟨rfl,
    set_name_same_noop (fun _ => true) ⟨some "x", 0, none, ["x", "y"]⟩
      (some "x") rfl⟩

/-- C4: with the default containment implementation (membership against the key
list) and a syntactically valid glyph name, `name in layer` is true exactly when
`layer[name]` does not raise `notFound` (the item hook, per its contract, hands
back a wrapped glyph and never signals `notFound` itself); moreover, lookup of
an absent name raises `notFound` whatever the item hook is — the hook is never
reached. -/
theorem contains_iff_getitem_no_notfound (validG : String → Bool) (h : Hooks σ)
    (s : σ) (name : String) (ks : List String)
    (hv : validG name = true)
    (hkeys : h._keys s = (.ok ks, s))
    (hitem : ∀ n t, (h._getItem n t).1 ≠ .error .notFound) :
    ((__contains__ validG h name s).1 = .ok true ↔
      (__getitem__ validG h name s).1 ≠ .error .notFound) ∧
    (name ∉ ks →
      ∀ g, __getitem__ validG { h with _getItem := g } name s
        = (.error .notFound, s)) := by
  by_cases hmem : name ∈ ks
  · have hc : __contains__ validG h name s = (.ok true, s) := by
      simp [__contains__, validateGlyphName, hv, _contains, keys, hkeys, hmem]
    have hg : __getitem__ validG h name s = h._getItem name s := by
      simp [__getitem__, validateGlyphName, hv, hc]
    refine ⟨?_, fun hcon => absurd hmem hcon⟩
    rw [hc, hg]
    simpa using hitem name s
  · have hc : __contains__ validG h name s = (.ok false, s) := by
      simp [__contains__, validateGlyphName, hv, _contains, keys, hkeys, hmem]
    have hg : __getitem__ validG h name s = (.error .notFound, s) := by
      simp [__getitem__, validateGlyphName, hv, hc]
    refine ⟨?_, ?_⟩
    · rw [hc, hg]
      simp
    · intro _ g
      have hc2 : __contains__ validG { h with _getItem := g } name s
          = (.ok false, s) := by
        simp [__contains__, validateGlyphName, hv, _contains, keys, hkeys, hmem]
      simp [__getitem__, validateGlyphName, hv, hc2]

/-- C4 witness: the two-glyph layer `["a", "b"]`, looked up at the present name
`a`. -/
theorem contains_iff_getitem_no_notfound_witness :
    (((fun (_ : String) => true) "a" = true) ∧
      (fixedGlyphHooks ["a", "b"])._keys () = (.ok ["a", "b"], ()) ∧
      (∀ n t, ((fixedGlyphHooks ["a", "b"])._getItem n t).1
        ≠ .error .notFound)) ∧
    (((__contains__ (fun _ => true) (fixedGlyphHooks ["a", "b"]) "a" ()).1
          = .ok true ↔
        (__getitem__ (fun _ => true) (fixedGlyphHooks ["a", "b"]) "a" ()).1
          ≠ .error .notFound) ∧
      ("a" ∉ (["a", "b"] : List String) →
        ∀ g, __getitem__ (fun _ => true)
            { fixedGlyphHooks ["a", "b"] with _getItem := g } "a" ()
          = (.error .notFound, ()))) :=
  ⟨⟨rfl, rfl, fun n t => by simp [fixedGlyphHooks]⟩,
    contains_iff_getitem_no_notfound (fun _ => true) (fixedGlyphHooks ["a", "b"])
      () "a" ["a", "b"] rfl rfl (fun n t => by simp [fixedGlyphHooks])⟩

/-- The `_iter` loop over state-preserving hooks with a fixed key list: every
listed name that is valid and present yields its wrapped glyph. -/
theorem iterLoop_pure_hooks (validG : String → Bool) (h : Hooks σ)
    (ks : List String) (wrap : String → Glyph)
    (hkeys : ∀ t, h._keys t = (.ok ks, t))
    (hitem : ∀ n t, h._getItem n t = (.ok (wrap n), t)) :
    ∀ (names : List String) (t : σ),
      (∀ n ∈ names, validG n = true ∧ n ∈ ks) →
      iterLoop validG h names t = (.ok (names.map wrap), t) := by
  intro names
  induction names with
  | nil => intro t _; rfl
  | cons name rest ih =>
    intro t hall
    have hhead := hall name (List.mem_cons_self name rest)
    have htail : ∀ n ∈ rest, validG n = true ∧ n ∈ ks :=
      fun n hn => hall n (List.mem_cons_of_mem _ hn)
    have hgi : __getitem__ validG h name t = (.ok (wrap name), t) := by
      simp [__getitem__, validateGlyphName, hhead.1, __contains__, _contains,
        keys, hkeys, hhead.2, hitem]
    simp [iterLoop, hgi, ih t htail]

/-- C5: with implemented keys and item hooks that leave the layer unchanged,
the default iteration terminates with exactly one glyph per name of the key
listing, in listing order — each being what indexed lookup returns for that
name — so no duplicates and no omissions. -/
theorem iter_yields_each_key (validG : String → Bool) (h : Hooks σ) (s : σ)
    (ks : List String) (wrap : String → Glyph)
    (hkeys : ∀ t, h._keys t = (.ok ks, t))
    (hitem : ∀ n t, h._getItem n t = (.ok (wrap n), t))
    (hv : ∀ n ∈ ks, validG n = true) :
    _iter validG h s = (.ok (ks.map wrap), s) ∧
    ∀ n ∈ ks, (__getitem__ validG h n s).1 = .ok (wrap n) := by
  constructor
  · have hloop := iterLoop_pure_hooks validG h ks wrap hkeys hitem ks s
      (fun n hn => ⟨hv n hn, hn⟩)
    simp [_iter, keys, hkeys, hloop]
  · intro n hn
    have hgi : __getitem__ validG h n s = (.ok (wrap n), s) := by
      simp [__getitem__, validateGlyphName, hv n hn, __contains__, _contains,
        keys, hkeys, hn, hitem]
    rw [hgi]

/-- C5 witness: the two-glyph layer `["a", "b"]` yields exactly the two wrapped
glyphs, in key order. -/
theorem iter_yields_each_key_witness :
    ((∀ t, (fixedGlyphHooks ["a", "b"])._keys t = (.ok ["a", "b"], t)) ∧
      (∀ n t, (fixedGlyphHooks ["a", "b"])._getItem n t
        = (.ok (Glyph.mk n), t)) ∧
      (∀ n ∈ (["a", "b"] : List String), (fun (_ : String) => true) n = true)) ∧
    (_iter (fun _ => true) (fixedGlyphHooks ["a", "b"]) ()
        = (.ok [⟨"a"⟩, ⟨"b"⟩], ()) ∧
      ∀ n ∈ (["a", "b"] : List String),
        (__getitem__ (fun _ => true) (fixedGlyphHooks ["a", "b"]) n ()).1
          = .ok (Glyph.mk n)) :=
  ⟨⟨fun t => rfl, fun n t => rfl, by decide⟩,
    iter_yields_each_key (fun _ => true) (fixedGlyphHooks ["a", "b"]) ()
      ["a", "b"] Glyph.mk (fun t => rfl) (fun n t => rfl) (by decide)⟩

/-- C6 counterexample: against hooks whose key list grows right after the first
fetch (`exKeysAt`), the code's default iteration yields the glyphs of the
snapshot `["a", "b"]` taken before the loop, while the strategy the claim
describes — one fresh fetch per yielded glyph, first remaining name of the
fresh list — would also yield `"c"`.  So the default iteration is not the
re-fetching strategy. -/
theorem iter_not_refetch_counterexample :
    (_iter (fun _ => true) (countingHooks exKeysAt) 0).1
        = .ok [⟨"a"⟩, ⟨"b"⟩] ∧
    (iterRefetch (fun _ => true) (countingHooks exKeysAt) 10 [] 0).1
        = .ok [⟨"a"⟩, ⟨"b"⟩, ⟨"c"⟩] ∧
    (_iter (fun _ => true) (countingHooks exKeysAt) 0).1
        ≠ (iterRefetch (fun _ => true) (countingHooks exKeysAt) 10 [] 0).1 := by
  refine ⟨?_, ?_, ?_⟩ <;> decide

/-- The `_iter` loop over the fetch-counting hooks: the yielded names are the
names the loop was handed (the snapshot), each step consuming exactly one
additional fetch through the membership test inside `__getitem__`. -/
theorem iterLoop_counting (keysAt : Nat → List String) :
    ∀ (names : List String) (c : Nat),
      (∀ i, i < names.length → names.getD i "" ∈ keysAt (c + i)) →
      iterLoop (fun _ => true) (countingHooks keysAt) names c
        = (.ok (names.map Glyph.mk), c + names.length) := by
  intro names
  induction names with
  | nil => intro c _; simp [iterLoop]
  | cons name rest ih =>
    intro c hall
    have hhead : name ∈ keysAt c := by
      have h0 := hall 0 (by simp)
      simpa using h0
    have hgi : __getitem__ (fun _ => true) (countingHooks keysAt) name c
        = (.ok ⟨name⟩, c + 1) := by
      simp [__getitem__, validateGlyphName, __contains__, _contains, keys,
        countingHooks, hhead]
    have htail : ∀ i, i < rest.length → rest.getD i "" ∈ keysAt (c + 1 + i) := by
      intro i hi
      have hstep := hall (i + 1) (by simpa using Nat.succ_lt_succ hi)
      have harith : c + (i + 1) = c + 1 + i := by omega
      simpa [harith] using hstep
    have hrest := ih (c + 1) htail
    simp [iterLoop, hgi, hrest]
    omega

/-- C6 (amended): the default iteration strategy fetches the key list from the
keys hook once, before the loop, and takes the first remaining name of that
snapshot at each step (advancing by slicing); the keys hook is consulted again
during a step only by the default membership test inside indexed lookup, so a
full run over an n-name snapshot performs exactly n + 1 fetches and yields the
snapshot's names, whatever later fetches return. -/
theorem iter_fetches_snapshot_once (keysAt : Nat → List String)
    (hstep : ∀ i, i < (keysAt 0).length →
      (keysAt 0).getD i "" ∈ keysAt (i + 1)) :
    _iter (fun _ => true) (countingHooks keysAt) 0
      = (.ok ((keysAt 0).map Glyph.mk), (keysAt 0).length + 1) := by
  have hloop := iterLoop_counting keysAt (keysAt 0) 1 (by
    intro i hi
    have harith : i + 1 = 1 + i := by omega
    simpa [harith] using hstep i hi)
  have harith : (1 : Nat) + (keysAt 0).length = (keysAt 0).length + 1 :=
    Nat.add_comm 1 _
  have hk : keys (countingHooks keysAt) 0 = (.ok (keysAt 0), 1) := rfl
  simp [_iter, hk, hloop, harith]

/-- C6 (amended) witness: run on the growing key lists `exKeysAt`: the snapshot
`["a", "b"]` is what gets yielded, in 3 = 2 + 1 fetches. -/
theorem iter_fetches_snapshot_once_witness :
    (∀ i, i < (exKeysAt 0).length →
      (exKeysAt 0).getD i "" ∈ exKeysAt (i + 1)) ∧
    _iter (fun _ => true) (countingHooks exKeysAt) 0
      = (.ok ((exKeysAt 0).map Glyph.mk), (exKeysAt 0).length + 1) :=
  ⟨by decide, iter_fetches_snapshot_once exKeysAt (by decide)⟩

/-- C7: on a layer whose color hooks store and return values unchanged, setting
the color to a tuple the validator accepts and reading it back returns the
`Color`-wrapped validated tuple; setting the color to null and reading it back
returns null. -/
theorem color_roundtrip (s : StoringLayerState) (t u : ColorTuple)
    (hv : validateColor t = .ok u) :
    (_set_base_color storingHooks (some t) s).1 = .ok () ∧
    (_get_base_color storingHooks (_set_base_color storingHooks (some t) s).2).1
      = .ok (some (Color.mk u)) ∧
    (_set_base_color storingHooks none s).1 = .ok () ∧
    (_get_base_color storingHooks (_set_base_color storingHooks none s).2).1
      = .ok none := by
  have hu : u = t := by
    unfold validateColor at hv
    split at hv
    · exact (Except.ok.inj hv).symm
    · exact Except.noConfusion hv
  subst hu
  refine ⟨?_, ?_, ?_, ?_⟩ <;>
    simp [_set_base_color, _get_base_color, storingHooks, hv]

/-- C7 witness: the opaque black tuple (0, 0, 0, 1). -/
theorem color_roundtrip_witness :
    validateColor ⟨0, 0, 0, 1⟩ = .ok ⟨0, 0, 0, 1⟩ ∧
    ((_set_base_color storingHooks (some ⟨0, 0, 0, 1⟩)
        ⟨none, 0, none, []⟩).1 = .ok () ∧
      (_get_base_color storingHooks
        (_set_base_color storingHooks (some ⟨0, 0, 0, 1⟩)
          ⟨none, 0, none, []⟩).2).1 = .ok (some (Color.mk ⟨0, 0, 0, 1⟩)) ∧
      (_set_base_color storingHooks none ⟨none, 0, none, []⟩).1 = .ok () ∧
      (_get_base_color storingHooks
        (_set_base_color storingHooks none ⟨none, 0, none, []⟩).2).1
        = .ok none) :=
  ⟨by decide, color_roundtrip ⟨none, 0, none, []⟩ ⟨0, 0, 0, 1⟩ ⟨0, 0, 0, 1⟩
    (by decide)⟩

/-- C8: on the bare base class (no hooks supplied), every must-override
operation raises `unimplemented`: name get and set (the set fails already while
reading the current name), color get and set (for null or any validator-accepted
tuple), the `lib` read, indexed lookup and the key listing, and the operations
whose defaults depend on them — length and membership. -/
theorem bare_base_unimplemented (valid validG : String → Bool)
    (v : Option String) (t u : ColorTuple) (name : String)
    (hn : validG name = true) (ht : validateColor t = .ok u) :
    (_get_base_name valid bareHooks ()).1 = .error .unimplemented ∧
    (_set_base_name valid bareHooks v ()).1 = .error .unimplemented ∧
    (_get_base_color bareHooks ()).1 = .error .unimplemented ∧
    (_set_base_color bareHooks none ()).1 = .error .unimplemented ∧
    (_set_base_color bareHooks (some t) ()).1 = .error .unimplemented ∧
    (libGet bareHooks ()).1 = .error .unimplemented ∧
    (__getitem__ validG bareHooks name ()).1 = .error .unimplemented ∧
    (keys bareHooks ()).1 = .error .unimplemented ∧
    (_len bareHooks ()).1 = .error .unimplemented ∧
    (__contains__ validG bareHooks name ()).1 = .error .unimplemented := by
  refine ⟨rfl, rfl, rfl, rfl, ?_, rfl, ?_, rfl, rfl, ?_⟩
  · simp [_set_base_color, ht, bareHooks]
  · simp [__getitem__, validateGlyphName, hn, __contains__, _contains, keys,
      bareHooks]
  · simp [__contains__, validateGlyphName, hn, _contains, keys, bareHooks]

/-- C8 witness: a concrete bare base instance, probed at the glyph name `a` and
the opaque black tuple. -/
theorem bare_base_unimplemented_witness :
    ((fun (_ : String) => true) "a" = true ∧
      validateColor ⟨0, 0, 0, 1⟩ = .ok ⟨0, 0, 0, 1⟩) ∧
    ((_get_base_name (fun _ => true) bareHooks ()).1 = .error .unimplemented ∧
      (_set_base_name (fun _ => true) bareHooks none ()).1
        = .error .unimplemented ∧
      (_get_base_color bareHooks ()).1 = .error .unimplemented ∧
      (_set_base_color bareHooks none ()).1 = .error .unimplemented ∧
      (_set_base_color bareHooks (some ⟨0, 0, 0, 1⟩) ()).1
        = .error .unimplemented ∧
      (libGet bareHooks ()).1 = .error .unimplemented ∧
      (__getitem__ (fun _ => true) bareHooks "a" ()).1
        = .error .unimplemented ∧
      (keys bareHooks ()).1 = .error .unimplemented ∧
      (_len bareHooks ()).1 = .error .unimplemented ∧
      (__contains__ (fun _ => true) bareHooks "a" ()).1
        = .error .unimplemented) :=
  ⟨⟨rfl, by decide⟩,
    bare_base_unimplemented (fun _ => true) (fun _ => true) none
      ⟨0, 0, 0, 1⟩ ⟨0, 0, 0, 1⟩ "a" rfl (by decide)⟩

/-- C9: the declared glyph-mutating and global operations — `newGlyph`,
`removeGlyph`, `insertGlyph`, `round`, `autoUnicodes`, `interpolate`,
`getCharacterMapping`, `getReverseComponentMapping` — have empty bodies on the
base class: called with any arguments they raise nothing, return the absent
value, and leave the layer state untouched. -/
theorem declared_ops_return_none {τ : Type} (s minLayer maxLayer : τ)
    (name : String) (clear : Bool) (glyph : Glyph) (oname : Option String)
    (factor : ℚ ⊕ ℚ × ℚ) (suppressError analyzeOnly showProgress : Bool) :
    newGlyph s name clear = (.ok none, s) ∧
    removeGlyph s name = (.ok none, s) ∧
    insertGlyph s glyph oname = (.ok none, s) ∧
    round s = (.ok none, s) ∧
    autoUnicodes s = (.ok none, s) ∧
    interpolate s factor minLayer maxLayer suppressError analyzeOnly
      showProgress = (.ok none, s) ∧
    getCharacterMapping s = (.ok none, s) ∧
    getReverseComponentMapping s = (.ok none, s) :=
  ⟨rfl, rfl, rfl, rfl, rfl, rfl, rfl, rfl⟩

end FontParts
